import Mathlib

/-!
Verification of the Elasticsearch client layer (`src/server/es/index.js`):
the field-type mapping cache, the validated single-page query, and the
cursor-based scroll export loop. JavaScript objects are modelled as ordered
association lists (JS plain objects iterate string keys in insertion order),
JS `undefined`/absence as `Option`, thrown errors and promise rejections as
explicit error values, and the remote engine as a response oracle. Network
activity is recorded explicitly so that claims about which requests are
issued can be stated.
-/

set_option autoImplicit false

/-- A JavaScript runtime value, restricted to the shapes this layer moves
around: primitives, `undefined`, `null`, arrays and string-keyed objects. -/
inductive JSVal where
  | undef
  | null
  | bool (b : Bool)
  | num (n : Int)
  | str (s : String)
  | arr (items : List JSVal)
  | obj (fields : List (String × JSVal))

/-- Errors observable from the JS code: a `CodedError(code, msg)` thrown by
validation, a `TypeError` from reading a property of `undefined`, and a
promise rejection that propagates to the caller unhandled. -/
inductive JsError where
  | codedError (code : Nat) (msg : String)
  | typeError (msg : String)
  | rejected (msg : String)
deriving DecidableEq, Repr

/-- One configured `(index, type)` pair from `config.esConfig.indices`. -/
structure IndexConfig where
  index : String
  type : String
deriving DecidableEq, Repr

/-- The `esConfig` object: the list of configured index/type pairs. -/
structure ESConfig where
  indices : List IndexConfig
deriving DecidableEq, Repr

/-- A field-name-to-type-tag dictionary for one index, in insertion order. -/
abbrev FieldTypeMap := List (String × String)

/-- The `this.fieldTypes` cache: index name to its field-type dictionary.
A key mapped to `none` models a key that is present but whose value is the
JS `undefined` (as happens when a mapping fetch failed and the swallowed
result `undefined` was assigned under the index key). -/
abbrev FieldTypesCache := List (String × Option FieldTypeMap)

/-- JS property assignment `o[k] = v` on a string-keyed object: overwrite in
place when the key exists, otherwise append (keeping insertion order). -/
def jsAssign {α : Type} (l : List (String × α)) (k : String) (v : α) :
    List (String × α) :=
  if l.any (fun p => p.1 == k) then
    l.map (fun p => if p.1 == k then (k, v) else p)
  else
    l ++ [(k, v)]

/-- Reading `cache[idx]` as JS does: a missing key and a key holding
`undefined` both read as `undefined` (here `none`). -/
def cacheRead (cache : FieldTypesCache) (idx : String) : Option FieldTypeMap :=
  match cache.lookup idx with
  | some (some m) => some m
  | _ => none

/-- True exactly when the value is the JS `undefined` or `null`, mirroring
the guard on line 55 of the source (`typeof ... !== undefined` and
`... !== null`, negated). -/
def isNullOrUndef : JSVal → Bool
  | .undef => true
  | .null => true
  | _ => false

namespace ES

/-- The `validatedQueryBody` built by `ES.query` (source lines 53-58): copy
every key whose value is neither `undefined` nor `null`, in key order. -/
def validatedBody (queryBody : List (String × JSVal)) :
    List (String × JSVal) :=
  queryBody.filter (fun kv => !(isNullOrUndef kv.2))

/-- Outcome of an awaited JS promise: resolved with a value (where `none`
models resolving with `undefined`), or rejected. -/
inductive PromiseResult (α : Type) where
  | resolved (v : Option α)
  | rejectedWith (msg : String)

/-- Observable effects of one `ES.query` call: the body actually sent to
the engine, how the returned promise settles, and the log lines emitted. -/
structure QueryRun where
  sent : List (String × JSVal)
  result : PromiseResult JSVal
  logs : List String

/-- `ES.query` (source lines 52-68). The transport (`client.search`) is an
oracle from the sent body to either a response body or a rejection. The
rejection handler on line 64-67 logs and returns nothing, so a transport
failure resolves the call with `undefined`. -/
def query (search : List (String × JSVal) → Except String JSVal)
    (queryBody : List (String × JSVal)) : QueryRun :=
  let validatedQueryBody := validatedBody queryBody
  match search validatedQueryBody with
  | .ok respBody =>
      { sent := validatedQueryBody
        result := .resolved (some respBody)
        logs := ["[ES.query] query body: "] }
  | .error msg =>
      { sent := validatedQueryBody
        result := .resolved none
        logs := ["[ES.query] query body: ", "[ES.query] error when query", msg] }

/-- One record of the `res` object built by `getESFields` (source lines
174-181): the configured index, its type, and the keys of its cached
field-type dictionary in insertion order. -/
structure FieldsRecord where
  index : String
  type : String
  fields : List String
deriving DecidableEq, Repr

/-- The `forEach` loop body of `getESFields` run over the configured
indices: for each one, read `this.fieldTypes[cfg.index]` and take its
`Object.keys`. When a cached entry is missing or holds `undefined`,
`Object.keys(undefined)` throws a `TypeError`, aborting the whole call. -/
def buildFieldsRes (cache : FieldTypesCache) :
    List IndexConfig → List (String × FieldsRecord) →
    Except JsError (List (String × FieldsRecord))
  | [], acc => .ok acc
  | c :: rest, acc =>
      match cacheRead cache c.index with
      | none => .error (.typeError "Cannot convert undefined or null to object")
      | some m =>
          buildFieldsRes cache rest
            (jsAssign acc c.index ⟨c.index, c.type, m.map Prod.fst⟩)

/-- `getESFields` called with no argument (source line 182-183): returns
the whole `res` object. -/
def getESFieldsAll (cfg : ESConfig) (cache : FieldTypesCache) :
    Except JsError (List (String × FieldsRecord)) :=
  buildFieldsRes cache cfg.indices []

/-- `getESFields(esIndex)` with a defined argument (source line 185):
returns `res[esIndex]`, which is `undefined` (`none`) when `esIndex` is not
a configured index. -/
def getESFieldsByIndex (cfg : ESConfig) (cache : FieldTypesCache)
    (esIndex : String) : Except JsError (Option FieldsRecord) :=
  (getESFieldsAll cfg cache).map (fun res => res.lookup esIndex)

/-- `getESIndexByType` (source lines 193-200): the first configured pair
whose type matches wins; with no match, a `CodedError(400, ...)` is thrown.
Pure lookup over configuration — no transport is involved. -/
def getESIndexByType (cfg : ESConfig) (esType : String) :
    Except JsError String :=
  match cfg.indices.find? (fun i => i.type == esType) with
  | some i => .ok i.index
  | none =>
      .error (.codedError 400 ("Invalid es type: \"" ++ esType ++ "\""))

/-- The final value of `this.fieldTypes` after a run of the startup cache
build (source lines 144-157). Each configured pair is fetched concurrently;
a rejected fetch is swallowed by `_getESFieldsTypes` (source lines 40-42),
which resolves with `undefined`, and the `forEach` then assigns that
`undefined` under the index key. `Promise.all` preserves configuration
order, so assignments happen in configuration order starting from the
empty object. -/
def initializeCache (cfg : ESConfig)
    (fetch : String → String → Except String FieldTypeMap) :
    FieldTypesCache :=
  (cfg.indices.map (fun c =>
      (c.index,
        match fetch c.index c.type with
        | .ok m => some m
        | .error _ => none))).foldl
    (fun cache kv => jsAssign cache kv.1 kv.2) []

/-- The values `this.fieldTypes` holds at the points a concurrent reader
can observe during one run of the startup cache build, in order: before
the call starts (the prior cache), at the single suspension point (the
`await Promise.all` on source line 150, which comes after the synchronous
clear `this.fieldTypes = ...` on source line 145, so the cache is the
empty object there), and after completion (the `forEach` fill on lines
152-154 is synchronous, so no intermediate partially-filled state is
observable). -/
def initializeCacheStates (old : FieldTypesCache) (cfg : ESConfig)
    (fetch : String → String → Except String FieldTypeMap) :
    List FieldTypesCache :=
  [old, [], initializeCache cfg fetch]

/-- One hit of a scroll response page; the loop extracts its source
document (`item._source`, source line 133). -/
structure ScrollHit where
  source : JSVal

/-- One scroll response body: the cursor handle `_scroll_id` (a response
could in principle lack it, hence `Option`) and the page of hits
(`hits.hits`). -/
structure ScrollBatch where
  scrollId : Option String
  hits : List ScrollHit

/-- A network request issued by `scrollQuery`: the initial `client.search`
with scroll parameters, a `client.scroll` continuation presenting only the
current cursor handle, or the final `client.clearScroll` release. -/
inductive NetCall where
  | search (index type : String) (body : List (String × JSVal))
      (size : Nat) (sourceFields : List String) (sort : Option JSVal)
  | scroll (scrollId : String)
  | clearScroll (scrollId : Option String)

/-- Page-size bound passed as `size` on the first scroll request.
Modelled from the spec: the constant `SCROLL_PAGE_SIZE` is imported from
`src/server/es/const.js`, a file not among the sources here; the spec
describes it only as a page-size bound and no claim depends on its
value. -/
def SCROLL_PAGE_SIZE : Nat := 10000

/-- `_.difference(fields, belonging)` from lodash (source line 88): the
members of the first list not contained in the second, in order. -/
def lodashDifference (xs ys : List String) : List String :=
  xs.filter (fun x => !(ys.contains x))

/-- The `validatedQueryBody` of `scrollQuery` (source line 95): the filter
wrapped under the `query` key when one is given, else the empty object. -/
def scrollBody (filter : Option JSVal) : List (String × JSVal) :=
  match filter with
  | some f => [("query", f)]
  | none => []

/-- How the page-fetch loop of `scrollQuery` (source lines 103-134) ends:
normal termination on a zero-size batch (carrying the last cursor handle
and the accumulated documents), a thrown error, or exhaustion of the
response oracle (a modelling artifact: the theorems always supply enough
responses). -/
inductive LoopExit where
  | done (scrollID : Option String) (totalData : List JSVal)
  | err (e : JsError)
  | pagesExhausted

/-- The page-fetch loop of `scrollQuery`, one oracle response consumed per
iteration. With no cursor yet, the iteration issues the initial search
(source lines 105-116); its rejection handler swallows the error and
returns `undefined`, so reading `res.body` then throws a `TypeError`.
With a cursor, the iteration issues a continuation (source lines 120-123)
carrying only the cursor handle; a rejection there has no handler and
propagates. After a response, the cursor handle is replaced by the
response cursor, the hit sources are appended to the accumulator, and the
loop continues exactly when the batch was nonempty. -/
def scrollLoop (esIndex esType : String) (body : List (String × JSVal))
    (fields : List String) (sort : Option JSVal) :
    List (Except String ScrollBatch) → Option String → List JSVal →
    List NetCall × LoopExit
  | [], _, _ => ([], .pagesExhausted)
  | page :: rest, scrollID, totalData =>
    match scrollID with
    | none =>
        match page with
        | .error _ =>
            ([.search esIndex esType body SCROLL_PAGE_SIZE fields sort],
             .err (.typeError "Cannot read property body of undefined"))
        | .ok batch =>
            let docs := totalData ++ batch.hits.map ScrollHit.source
            if batch.hits.length > 0 then
              let next := scrollLoop esIndex esType body fields sort rest
                batch.scrollId docs
              (.search esIndex esType body SCROLL_PAGE_SIZE fields sort
                :: next.1, next.2)
            else
              ([.search esIndex esType body SCROLL_PAGE_SIZE fields sort],
               .done batch.scrollId docs)
    | some sid =>
        match page with
        | .error msg => ([.scroll sid], .err (.rejected msg))
        | .ok batch =>
            let docs := totalData ++ batch.hits.map ScrollHit.source
            if batch.hits.length > 0 then
              let next := scrollLoop esIndex esType body fields sort rest
                batch.scrollId docs
              (.scroll sid :: next.1, next.2)
            else
              ([.scroll sid], .done batch.scrollId docs)

/-- Overall observable outcome of one `scrollQuery` call. -/
inductive ScrollOutcome where
  | ok (docs : List JSVal)
  | error (e : JsError)
  | pagesExhausted

/-- Observable effects of one `scrollQuery` call: the network requests
issued, in order, and how the call settles. -/
structure ScrollRun where
  calls : List NetCall
  outcome : ScrollOutcome

/-- `ES.scrollQuery` (source lines 77-142). Validation first: empty index
or type throws a 400 `CodedError` (lines 82-87); then the requested
fields are checked against `getESFields(esIndex).fields` (lines 88-94) —
reading `.fields` of `undefined` throws a `TypeError`, and a nonempty
difference throws a 400 `CodedError` naming the offending fields. Only
then does the page loop run; on normal termination the last known cursor
handle is released with `clearScroll` (lines 137-139). An error thrown
inside the loop propagates without any release: the `clearScroll` call
sits after the loop, not in a cleanup handler. -/
def scrollQuery (cfg : ESConfig) (cache : FieldTypesCache)
    (esIndex esType : String) (filter : Option JSVal)
    (fields : List String) (sort : Option JSVal)
    (pages : List (Except String ScrollBatch)) : ScrollRun :=
  if esIndex = "" ∨ esType = "" then
    ⟨[], .error (.codedError 400 "Invalid es index or es type name")⟩
  else
    match getESFieldsByIndex cfg cache esIndex with
    | .error e => ⟨[], .error e⟩
    | .ok none =>
        ⟨[], .error (.typeError "Cannot read property fields of undefined")⟩
    | .ok (some record) =>
        let fieldsNotBelong := lodashDifference fields record.fields
        if fieldsNotBelong.length > 0 then
          ⟨[], .error (.codedError 400
            ("Invalid fields: \"" ++
              String.intercalate "\", \"" fieldsNotBelong ++ "\""))⟩
        else
          let run := scrollLoop esIndex esType (scrollBody filter) fields
            sort pages none []
          match run.2 with
          | .done scrollID totalData =>
              ⟨run.1 ++ [.clearScroll scrollID], .ok totalData⟩
          | .err e => ⟨run.1, .error e⟩
          | .pagesExhausted => ⟨run.1, .pagesExhausted⟩

end ES

/-- The sent body is independent of how the transport answers. -/
theorem ES.query_sent_eq (search : List (String × JSVal) → Except String JSVal)
    (queryBody : List (String × JSVal)) :
    (ES.query search queryBody).sent = ES.validatedBody queryBody := by
  cases h : search (ES.validatedBody queryBody) <;> simp [ES.query, h]

/-- C6: the body `query` sends to the engine omits exactly the keys whose
value is `null` or `undefined`, preserves every other key-value pair and
their relative order (the sent body is a sublist of the input), and is the
identity on bodies containing no such keys. -/
theorem query_strips_null_undefined
    (search : List (String × JSVal) → Except String JSVal)
    (queryBody : List (String × JSVal)) :
    (ES.query search queryBody).sent.Sublist queryBody ∧
    (∀ kv : String × JSVal,
      kv ∈ (ES.query search queryBody).sent ↔
        kv ∈ queryBody ∧ isNullOrUndef kv.2 = false) ∧
    ((∀ kv ∈ queryBody, isNullOrUndef kv.2 = false) →
      (ES.query search queryBody).sent = queryBody) := by
  rw [ES.query_sent_eq]
  refine ⟨List.filter_sublist _, fun kv => ?_, fun h => ?_⟩
  · simp [ES.validatedBody, List.mem_filter]
  · exact List.filter_eq_self.mpr (by simpa using h)

/-- Witness for C6 on a concrete body with a null, an undefined and two
kept keys. -/
theorem query_strips_null_undefined_witness :
    (ES.query (fun _ => Except.ok JSVal.null)
        [("from", JSVal.num 0), ("sort", JSVal.null), ("x", JSVal.undef),
         ("size", JSVal.num 5)]).sent =
      [("from", JSVal.num 0), ("size", JSVal.num 5)] ∧
    (ES.query (fun _ => Except.ok JSVal.null)
        [("from", JSVal.num 0), ("size", JSVal.num 5)]).sent =
      [("from", JSVal.num 0), ("size", JSVal.num 5)] := by
  constructor
  · rfl
  · exact (query_strips_null_undefined (fun _ => Except.ok JSVal.null)
      [("from", JSVal.num 0), ("size", JSVal.num 5)]).2.2
      (by intro kv hkv; fin_cases hkv <;> rfl)

/-- C8: whenever the transport call made by `query` fails, the error is
logged and the promise resolves with `undefined` (no result) instead of
re-throwing the failure to the caller. -/
theorem query_swallows_transport_error
    (search : List (String × JSVal) → Except String JSVal)
    (queryBody : List (String × JSVal)) (msg : String)
    (h : search (ES.validatedBody queryBody) = .error msg) :
    (ES.query search queryBody).result = .resolved none ∧
    "[ES.query] error when query" ∈ (ES.query search queryBody).logs ∧
    msg ∈ (ES.query search queryBody).logs := by
  simp [ES.query, h]

/-- Witness for C8: a concrete transport that always rejects. -/
theorem query_swallows_transport_error_witness :
    (ES.query (fun _ => Except.error "connect ECONNREFUSED")
      [("size", JSVal.num 5)]).result = .resolved none ∧
    "[ES.query] error when query" ∈
      (ES.query (fun _ => Except.error "connect ECONNREFUSED")
        [("size", JSVal.num 5)]).logs := by
  have h := query_swallows_transport_error
    (fun _ => Except.error "connect ECONNREFUSED")
    [("size", JSVal.num 5)] "connect ECONNREFUSED" rfl
  exact ⟨h.1, h.2.1⟩

/-- C10: the null/undefined stripping in `query` is shallow. A top-level
value that is itself an object is forwarded to the engine unchanged even
when that nested object contains null or undefined fields. -/
theorem query_strip_is_shallow
    (search : List (String × JSVal) → Except String JSVal)
    (queryBody : List (String × JSVal)) (k : String)
    (inner : List (String × JSVal))
    (hmem : (k, JSVal.obj inner) ∈ queryBody)
    (k2 : String) (v2 : JSVal) (hinner : (k2, v2) ∈ inner)
    (hnull : isNullOrUndef v2 = true) :
    (k, JSVal.obj inner) ∈ (ES.query search queryBody).sent := by
  rw [ES.query_sent_eq]
  exact List.mem_filter.mpr ⟨hmem, rfl⟩

/-- C7: `getESIndexByType` fails with a 400 `CodedError` naming the type
when no configured pair has that type, and returns exactly the configured
index name paired with the type when a unique such pair exists. The
function reads only the static configuration — no transport oracle appears
in its signature. -/
theorem getESIndexByType_spec (cfg : ESConfig) (esType : String) :
    ((∀ i ∈ cfg.indices, i.type ≠ esType) →
      ES.getESIndexByType cfg esType =
        .error (.codedError 400 ("Invalid es type: \"" ++ esType ++ "\""))) ∧
    (∀ i ∈ cfg.indices, i.type = esType →
      (∀ j ∈ cfg.indices, j.type = esType → j = i) →
      ES.getESIndexByType cfg esType = .ok i.index) := by
  constructor
  · intro h
    have hnone : cfg.indices.find? (fun i => i.type == esType) = none :=
      List.find?_eq_none.mpr (fun x hx => by simpa using h x hx)
    simp [ES.getESIndexByType, hnone]
  · intro i hi hty huniq
    cases hf : cfg.indices.find? (fun j => j.type == esType) with
    | none =>
        exact absurd hty
          (by simpa using List.find?_eq_none.mp hf i hi)
    | some j =>
        have hj : j.type = esType := by simpa using List.find?_some hf
        have hji : j = i := huniq j (List.mem_of_find?_eq_some hf) hj
        simp [ES.getESIndexByType, hf, hji]

/-- Witness for C7: a two-index configuration; the present type resolves to
its configured index and an absent type yields the 400 error. -/
theorem getESIndexByType_spec_witness :
    ES.getESIndexByType ⟨[⟨"subject_index", "subject"⟩,
        ⟨"file_index", "file"⟩]⟩ "file" = .ok "file_index" ∧
    ES.getESIndexByType ⟨[⟨"subject_index", "subject"⟩,
        ⟨"file_index", "file"⟩]⟩ "case" =
      .error (.codedError 400 "Invalid es type: \"case\"") := by
  constructor
  · exact (getESIndexByType_spec
      ⟨[⟨"subject_index", "subject"⟩, ⟨"file_index", "file"⟩]⟩ "file").2
      ⟨"file_index", "file"⟩ (by simp) rfl
      (by intro j hj hjty; fin_cases hj <;> simp_all)
  · exact (getESIndexByType_spec
      ⟨[⟨"subject_index", "subject"⟩, ⟨"file_index", "file"⟩]⟩ "case").1
      (by intro i hi; fin_cases hi <;> simp)

/-- C3 counterexample: with configured indices A and B where the mapping
fetch for B fails, the resulting cache DOES hold an entry under the B key
(the swallowed `undefined` result is assigned under it), so the cache does
not lack an entry for B as the claim states; A keeps its field types. -/
theorem initCache_placeholder_counterexample :
    ("b_index", (none : Option FieldTypeMap)) ∈
      ES.initializeCache ⟨[⟨"a_index", "a"⟩, ⟨"b_index", "b"⟩]⟩
        (fun i _ => if i = "a_index" then .ok [("name", "text")]
          else .error "getMapping failed") ∧
    ("a_index", some [("name", "text")]) ∈
      ES.initializeCache ⟨[⟨"a_index", "a"⟩, ⟨"b_index", "b"⟩]⟩
        (fun i _ => if i = "a_index" then .ok [("name", "text")]
          else .error "getMapping failed") := by
  decide

/-- C3 amended: over indices [A, B] where A fetches its map and B fails,
the cache build keeps A's field-type map, does not abort on B, and
installs under the B key a placeholder holding `undefined` (modelled
`none`) — the key is present, its value absent. -/
theorem initCache_partial_failure (A B : IndexConfig)
    (fetch : String → String → Except String FieldTypeMap)
    (mA : FieldTypeMap) (e : String)
    (hAB : A.index ≠ B.index)
    (hA : fetch A.index A.type = .ok mA)
    (hB : fetch B.index B.type = .error e) :
    ES.initializeCache ⟨[A, B]⟩ fetch =
      [(A.index, some mA), (B.index, none)] := by
  simp [ES.initializeCache, hA, hB, jsAssign, hAB]

/-- Witness for C3 amended, at the concrete two-index configuration. -/
theorem initCache_partial_failure_witness :
    ES.initializeCache ⟨[⟨"a_index", "a"⟩, ⟨"b_index", "b"⟩]⟩
        (fun i _ => if i = "a_index" then .ok [("name", "text")]
          else .error "getMapping failed") =
      [("a_index", some [("name", "text")]), ("b_index", none)] := by
  exact initCache_partial_failure ⟨"a_index", "a"⟩ ⟨"b_index", "b"⟩
    (fun i _ => if i = "a_index" then .ok [("name", "text")]
      else .error "getMapping failed")
    [("name", "text")] "getMapping failed" (by decide) rfl rfl

/-- C4 counterexample: a concurrent reader at the suspension point of the
cache rebuild observes the empty object — which is neither the previously
installed complete map nor the new fully-built one — because the cache is
cleared synchronously before the fetches are awaited. -/
theorem initCache_clear_counterexample :
    ([] : FieldTypesCache) ∈
      ES.initializeCacheStates [("subject_index", some [("name", "text")])]
        ⟨[⟨"subject_index", "subject"⟩]⟩
        (fun _ _ => .ok [("name", "text")]) ∧
    ([] : FieldTypesCache) ≠
      [("subject_index", some [("name", "text")])] ∧
    ([] : FieldTypesCache) ≠
      ES.initializeCache ⟨[⟨"subject_index", "subject"⟩]⟩
        (fun _ _ => .ok [("name", "text")]) := by
  decide

/-- Witness for C10: a body whose `query` key holds an object with a null
field inside is sent through with the nested null intact. -/
theorem query_strip_is_shallow_witness :
    ("query", JSVal.obj [("match", JSVal.null)]) ∈
      (ES.query (fun _ => Except.ok JSVal.null)
        [("query", JSVal.obj [("match", JSVal.null)]),
         ("sort", JSVal.null)]).sent := by
  exact query_strip_is_shallow (fun _ => Except.ok JSVal.null)
    [("query", JSVal.obj [("match", JSVal.null)]), ("sort", JSVal.null)]
    "query" [("match", JSVal.null)] (by simp) "match" JSVal.null (by simp) rfl

/-- Helper: the field-record build aborts with a `TypeError` as soon as any
configured index has no readable cache entry. -/
theorem buildFieldsRes_error_of_missing (cache : FieldTypesCache)
    (l : List IndexConfig) (acc : List (String × ES.FieldsRecord))
    (c : IndexConfig) (hc : c ∈ l) (hm : cacheRead cache c.index = none) :
    ES.buildFieldsRes cache l acc =
      .error (.typeError "Cannot convert undefined or null to object") := by
  induction l generalizing acc with
  | nil => cases hc
  | cons head rest ih =>
      cases hc with
      | head => simp [ES.buildFieldsRes, hm]
      | tail _ htail =>
          cases hread : cacheRead cache head.index with
          | none => simp [ES.buildFieldsRes, hread]
          | some m =>
              simp only [ES.buildFieldsRes, hread]
              exact ih _ htail

/-- C9: when any single configured index has no cached field-type map,
every `getESFields` call throws a `TypeError` — the no-argument form and
the form naming any index, including a different, successfully loaded one —
and `scrollQuery` against any valid index/type likewise fails before
issuing a single network request. -/
theorem getESFields_missing_entry_throws (cfg : ESConfig)
    (cache : FieldTypesCache) (c : IndexConfig)
    (hc : c ∈ cfg.indices) (hm : cacheRead cache c.index = none) :
    ES.getESFieldsAll cfg cache =
      .error (.typeError "Cannot convert undefined or null to object") ∧
    (∀ esIndex, ES.getESFieldsByIndex cfg cache esIndex =
      .error (.typeError "Cannot convert undefined or null to object")) ∧
    (∀ esIndex esType filter fields sort pages, esIndex ≠ "" → esType ≠ "" →
      ES.scrollQuery cfg cache esIndex esType filter fields sort pages =
        ⟨[], .error
          (.typeError "Cannot convert undefined or null to object")⟩) := by
  have hall : ES.getESFieldsAll cfg cache =
      .error (.typeError "Cannot convert undefined or null to object") :=
    buildFieldsRes_error_of_missing cache cfg.indices [] c hc hm
  have hby : ∀ esIndex, ES.getESFieldsByIndex cfg cache esIndex =
      .error (.typeError "Cannot convert undefined or null to object") := by
    intro esIndex
    simp [ES.getESFieldsByIndex, hall, Except.map]
  refine ⟨hall, hby, ?_⟩
  intro esIndex esType filter fields sort pages h1 h2
  simp [ES.scrollQuery, h1, h2, hby esIndex]

/-- Witness for C9: index B failed to load, so `getESFields` throws even
for the loaded index A, for the no-argument form, and `scrollQuery`
against A fails with no network call. -/
theorem getESFields_missing_entry_throws_witness :
    ES.getESFieldsAll ⟨[⟨"a_index", "a"⟩, ⟨"b_index", "b"⟩]⟩
        [("a_index", some [("name", "text")]), ("b_index", none)] =
      .error (.typeError "Cannot convert undefined or null to object") ∧
    ES.getESFieldsByIndex ⟨[⟨"a_index", "a"⟩, ⟨"b_index", "b"⟩]⟩
        [("a_index", some [("name", "text")]), ("b_index", none)] "a_index" =
      .error (.typeError "Cannot convert undefined or null to object") ∧
    ES.scrollQuery ⟨[⟨"a_index", "a"⟩, ⟨"b_index", "b"⟩]⟩
        [("a_index", some [("name", "text")]), ("b_index", none)]
        "a_index" "a" none ["name"] none [] =
      ⟨[], .error
        (.typeError "Cannot convert undefined or null to object")⟩ := by
  have h := getESFields_missing_entry_throws
    ⟨[⟨"a_index", "a"⟩, ⟨"b_index", "b"⟩]⟩
    [("a_index", some [("name", "text")]), ("b_index", none)]
    ⟨"b_index", "b"⟩ (by simp) (by decide)
  exact ⟨h.1, h.2.1 "a_index",
    h.2.2 "a_index" "a" none ["name"] none [] (by decide) (by decide)⟩

/-- C4 amended: the cache rebuild is not an atomic swap. A reader at its
single suspension point observes the empty object — the prior map is
discarded synchronously before any fetch completes — and a read through
`getESFields` at that moment throws for any nonempty configuration. The
new map is installed by a synchronous fill after the single await, so the
only observable states are the prior map, the empty object, and the
completed new map; a partially filled new map is never observable. -/
theorem initCache_observable_states (old : FieldTypesCache) (cfg : ESConfig)
    (fetch : String → String → Except String FieldTypeMap) :
    (ES.initializeCacheStates old cfg fetch).getLast? =
      some (ES.initializeCache cfg fetch) ∧
    ([] : FieldTypesCache) ∈ ES.initializeCacheStates old cfg fetch ∧
    (∀ s ∈ ES.initializeCacheStates old cfg fetch,
      s = old ∨ s = [] ∨ s = ES.initializeCache cfg fetch) ∧
    (cfg.indices ≠ [] →
      ES.getESFieldsAll cfg [] =
        .error (.typeError "Cannot convert undefined or null to object")) := by
  refine ⟨rfl, by simp [ES.initializeCacheStates], ?_, ?_⟩
  · intro s hs
    simp only [ES.initializeCacheStates, List.mem_cons,
      List.mem_singleton, List.not_mem_nil, or_false] at hs
    tauto
  · intro hne
    cases hcfg : cfg.indices with
    | nil => exact absurd hcfg hne
    | cons hd tl =>
        have : cacheRead [] hd.index = none := rfl
        exact buildFieldsRes_error_of_missing [] cfg.indices [] hd
          (by rw [hcfg]; exact List.mem_cons_self hd tl) this

/-- Witness for C4 amended: a concrete one-index configuration, with the
mid-run read failure instantiated. -/
theorem initCache_observable_states_witness :
    ([] : FieldTypesCache) ∈
      ES.initializeCacheStates [("subject_index", some [("name", "text")])]
        ⟨[⟨"subject_index", "subject"⟩]⟩
        (fun _ _ => .ok [("name", "text")]) ∧
    ES.getESFieldsAll ⟨[⟨"subject_index", "subject"⟩]⟩ [] =
      .error (.typeError "Cannot convert undefined or null to object") := by
  have h := initCache_observable_states
    [("subject_index", some [("name", "text")])]
    ⟨[⟨"subject_index", "subject"⟩]⟩ (fun _ _ => .ok [("name", "text")])
  exact ⟨h.2.1, h.2.2.2 (by decide)⟩

/-- C1: a scroll export whose engine returns successive pages of sizes
two, two, and zero accumulates exactly the four documents, first page
first and in within-page arrival order, issues a continuation only up to
the zero-size page, and releases the cursor exactly once after it, with
the last known cursor handle. -/
theorem scrollQuery_pages_two_two_zero (cfg : ESConfig)
    (cache : FieldTypesCache) (esIndex esType : String)
    (filter : Option JSVal) (fields : List String) (sort : Option JSVal)
    (record : ES.FieldsRecord) (d1 d2 d3 d4 : JSVal) (s1 s2 s3 : String)
    (hIdx : esIndex ≠ "") (hTy : esType ≠ "")
    (hFields : ES.getESFieldsByIndex cfg cache esIndex = .ok (some record))
    (hValid : ES.lodashDifference fields record.fields = []) :
    ES.scrollQuery cfg cache esIndex esType filter fields sort
        [.ok ⟨some s1, [⟨d1⟩, ⟨d2⟩]⟩, .ok ⟨some s2, [⟨d3⟩, ⟨d4⟩]⟩,
         .ok ⟨some s3, []⟩] =
      ⟨[.search esIndex esType (ES.scrollBody filter) ES.SCROLL_PAGE_SIZE
          fields sort, .scroll s1, .scroll s2, .clearScroll (some s3)],
       .ok [d1, d2, d3, d4]⟩ := by
  simp [ES.scrollQuery, hIdx, hTy, hFields, hValid, ES.scrollLoop]

/-- Witness for C1: a concrete one-index configuration and a concrete
three-page fixture. -/
theorem scrollQuery_pages_two_two_zero_witness :
    ES.scrollQuery ⟨[⟨"subject_index", "subject"⟩]⟩
        [("subject_index", some [("name", "text"), ("age", "integer")])]
        "subject_index" "subject" none ["name"] none
        [.ok ⟨some "sid1", [⟨JSVal.str "doc1"⟩, ⟨JSVal.str "doc2"⟩]⟩,
         .ok ⟨some "sid2", [⟨JSVal.str "doc3"⟩, ⟨JSVal.str "doc4"⟩]⟩,
         .ok ⟨some "sid3", []⟩] =
      ⟨[.search "subject_index" "subject" [] ES.SCROLL_PAGE_SIZE ["name"]
          none, .scroll "sid1", .scroll "sid2", .clearScroll (some "sid3")],
       .ok [JSVal.str "doc1", JSVal.str "doc2", JSVal.str "doc3",
         JSVal.str "doc4"]⟩ := by
  exact scrollQuery_pages_two_two_zero ⟨[⟨"subject_index", "subject"⟩]⟩
    [("subject_index", some [("name", "text"), ("age", "integer")])]
    "subject_index" "subject" none ["name"] none
    ⟨"subject_index", "subject", ["name", "age"]⟩
    (JSVal.str "doc1") (JSVal.str "doc2") (JSVal.str "doc3")
    (JSVal.str "doc4") "sid1" "sid2" "sid3"
    (by decide) (by decide) rfl rfl

/-- C5: `scrollQuery` fails synchronously with a 400 `CodedError` and
issues zero network requests when the index or type is empty, and likewise
when a requested field is outside the cached field list of the target
index, with the message naming exactly the offending fields. -/
theorem scrollQuery_validation_spec (cfg : ESConfig)
    (cache : FieldTypesCache) (esIndex esType : String)
    (filter : Option JSVal) (fields : List String) (sort : Option JSVal)
    (pages : List (Except String ES.ScrollBatch)) (record : ES.FieldsRecord)
    (hFields : ES.getESFieldsByIndex cfg cache esIndex = .ok (some record)) :
    ((esIndex = "" ∨ esType = "") →
      ES.scrollQuery cfg cache esIndex esType filter fields sort pages =
        ⟨[], .error (.codedError 400 "Invalid es index or es type name")⟩) ∧
    (esIndex ≠ "" → esType ≠ "" →
      ES.lodashDifference fields record.fields ≠ [] →
      ES.scrollQuery cfg cache esIndex esType filter fields sort pages =
        ⟨[], .error (.codedError 400 ("Invalid fields: \"" ++
          String.intercalate "\", \""
            (ES.lodashDifference fields record.fields) ++ "\""))⟩) := by
  constructor
  · intro h
    simp [ES.scrollQuery, h]
  · intro h1 h2 h3
    have hlen : 0 < (ES.lodashDifference fields record.fields).length :=
      List.length_pos.mpr h3
    simp [ES.scrollQuery, h1, h2, hFields, hlen]

/-- Witness for C5: an empty type name gives the index/type 400, and a
field outside the cached list gives the field-naming 400; both with an
empty call record. -/
theorem scrollQuery_validation_spec_witness :
    ES.scrollQuery ⟨[⟨"subject_index", "subject"⟩]⟩
        [("subject_index", some [("name", "text")])]
        "subject_index" "" none [] none [] =
      ⟨[], .error (.codedError 400 "Invalid es index or es type name")⟩ ∧
    ES.scrollQuery ⟨[⟨"subject_index", "subject"⟩]⟩
        [("subject_index", some [("name", "text")])]
        "subject_index" "subject" none ["bogus"] none [] =
      ⟨[], .error (.codedError 400 "Invalid fields: \"bogus\"")⟩ := by
  constructor
  · exact (scrollQuery_validation_spec ⟨[⟨"subject_index", "subject"⟩]⟩
      [("subject_index", some [("name", "text")])] "subject_index" "" none
      [] none [] ⟨"subject_index", "subject", ["name"]⟩ rfl).1
      (Or.inr rfl)
  · exact (scrollQuery_validation_spec ⟨[⟨"subject_index", "subject"⟩]⟩
      [("subject_index", some [("name", "text")])] "subject_index" "subject"
      none ["bogus"] none [] ⟨"subject_index", "subject", ["name"]⟩
      rfl).2 (by decide) (by decide) (by decide)

/-- Helper: the page loop itself never issues a cursor release; the single
`clearScroll` sits after the loop and is reached only on normal exit. -/
theorem scrollLoop_no_clearScroll (esIndex esType : String)
    (body : List (String × JSVal)) (fields : List String)
    (sort : Option JSVal) (pages : List (Except String ES.ScrollBatch))
    (scrollID : Option String) (totalData : List JSVal)
    (sid : Option String) :
    ES.NetCall.clearScroll sid ∉
      (ES.scrollLoop esIndex esType body fields sort pages scrollID
        totalData).1 := by
  induction pages generalizing scrollID totalData with
  | nil => simp [ES.scrollLoop]
  | cons page rest ih =>
      cases scrollID with
      | none =>
          cases page with
          | error msg => simp [ES.scrollLoop]
          | ok batch =>
              by_cases hb : batch.hits.length > 0
              · simp only [ES.scrollLoop, hb, if_pos, List.mem_cons]
                rintro (h | h)
                · exact absurd h (by simp)
                · exact ih _ _ h
              · simp [ES.scrollLoop, hb]
      | some s =>
          cases page with
          | error msg => simp [ES.scrollLoop]
          | ok batch =>
              by_cases hb : batch.hits.length > 0
              · simp only [ES.scrollLoop, hb, if_pos, List.mem_cons]
                rintro (h | h)
                · exact absurd h (by simp)
                · exact ih _ _ h
              · simp [ES.scrollLoop, hb]

/-- C2 counterexample: a continuation-page failure after one successful
page. The run ends with the propagated rejection, and the recorded
requests are the initial search and the failed continuation only — no
cursor release is issued with the last known handle, contrary to the
claim. -/
theorem scrollQuery_later_failure_counterexample :
    (ES.scrollQuery ⟨[⟨"subject_index", "subject"⟩]⟩
        [("subject_index", some [("name", "text")])]
        "subject_index" "subject" none ["name"] none
        [.ok ⟨some "sid1", [⟨JSVal.str "doc1"⟩, ⟨JSVal.str "doc2"⟩]⟩,
         .error "socket hang up"]).outcome =
      .error (.rejected "socket hang up") ∧
    ¬ ∃ sid, ES.NetCall.clearScroll sid ∈
      (ES.scrollQuery ⟨[⟨"subject_index", "subject"⟩]⟩
        [("subject_index", some [("name", "text")])]
        "subject_index" "subject" none ["name"] none
        [.ok ⟨some "sid1", [⟨JSVal.str "doc1"⟩, ⟨JSVal.str "doc2"⟩]⟩,
         .error "socket hang up"]).calls := by
  constructor
  · rfl
  · rintro ⟨sid, hmem⟩
    have hcalls : (ES.scrollQuery ⟨[⟨"subject_index", "subject"⟩]⟩
        [("subject_index", some [("name", "text")])]
        "subject_index" "subject" none ["name"] none
        [.ok ⟨some "sid1", [⟨JSVal.str "doc1"⟩, ⟨JSVal.str "doc2"⟩]⟩,
         .error "socket hang up"]).calls =
        [.search "subject_index" "subject" [] ES.SCROLL_PAGE_SIZE ["name"]
          none, .scroll "sid1"] := rfl
    rw [hcalls] at hmem
    simp at hmem

/-- C2 amended: when the first page fetch fails, its rejection is swallowed
and surfaces as a `TypeError` on reading the missing response, after the
single search request and with no release attempted on the undefined
cursor; and when any later page fetch fails, the rejection propagates and
no cursor release is issued either — on every error exit, normal
termination being the only path to `clearScroll`, the run contains no
release call at all. -/
theorem scrollQuery_failure_no_release (cfg : ESConfig)
    (cache : FieldTypesCache) (esIndex esType : String)
    (filter : Option JSVal) (fields : List String) (sort : Option JSVal)
    (record : ES.FieldsRecord)
    (hIdx : esIndex ≠ "") (hTy : esType ≠ "")
    (hFields : ES.getESFieldsByIndex cfg cache esIndex = .ok (some record))
    (hValid : ES.lodashDifference fields record.fields = []) :
    (∀ msg rest,
      ES.scrollQuery cfg cache esIndex esType filter fields sort
          (.error msg :: rest) =
        ⟨[.search esIndex esType (ES.scrollBody filter) ES.SCROLL_PAGE_SIZE
            fields sort],
         .error (.typeError "Cannot read property body of undefined")⟩) ∧
    (∀ pages e,
      (ES.scrollQuery cfg cache esIndex esType filter fields sort
        pages).outcome = .error e →
      ∀ sid, ES.NetCall.clearScroll sid ∉
        (ES.scrollQuery cfg cache esIndex esType filter fields sort
          pages).calls) := by
  constructor
  · intro msg rest
    simp [ES.scrollQuery, hIdx, hTy, hFields, hValid, ES.scrollLoop]
  · intro pages e houtcome sid
    cases hexit : (ES.scrollLoop esIndex esType (ES.scrollBody filter)
        fields sort pages none []).2 with
    | done scrollID totalData =>
        simp [ES.scrollQuery, hIdx, hTy, hFields, hValid, hexit] at houtcome
    | err e2 =>
        have h2 := scrollLoop_no_clearScroll esIndex esType
          (ES.scrollBody filter) fields sort pages none [] sid
        simp [ES.scrollQuery, hIdx, hTy, hFields, hValid, hexit]
        exact h2
    | pagesExhausted =>
        simp [ES.scrollQuery, hIdx, hTy, hFields, hValid, hexit] at houtcome

/-- Witness for C2 amended: a first-page failure on a concrete fixture
produces the single search request, the `TypeError`, and no release. -/
theorem scrollQuery_failure_no_release_witness :
    ES.scrollQuery ⟨[⟨"subject_index", "subject"⟩]⟩
        [("subject_index", some [("name", "text")])]
        "subject_index" "subject" none ["name"] none
        [.error "connect ECONNREFUSED"] =
      ⟨[.search "subject_index" "subject" [] ES.SCROLL_PAGE_SIZE ["name"]
          none],
       .error (.typeError "Cannot read property body of undefined")⟩ := by
  exact (scrollQuery_failure_no_release ⟨[⟨"subject_index", "subject"⟩]⟩
    [("subject_index", some [("name", "text")])] "subject_index" "subject"
    none ["name"] none ⟨"subject_index", "subject", ["name"]⟩
    (by decide) (by decide) rfl rfl).1 "connect ECONNREFUSED" []
